import Mathlib

/-!
Shallow embedding of the nordigen CLI's token-lifecycle and API-client core.

The repository contains two variants of the same logic:

* the modular variant (`src/lib/config.js`, `src/lib/auth.js`,
  `src/lib/api.js`, `src/commands/config.js`): persisted store with an
  `auth` sub-record and a `defaults` sub-record, `isAccessTokenValid` /
  `isRefreshTokenValid` predicates, `ensureAuth` / `login` / `logout`,
  the `NordigenAPI.request` pipeline and the `config show` command;
* the single-file variant (`src/api.js` plus a CLI file): flat config
  keys `secretId`, `secretKey`, `accessToken`, `refreshToken`,
  `tokenExpiry`, with `obtainAccessToken` / `refreshAccessToken` /
  `getAccessToken` / `apiRequest` / `handleApiError`.

Network calls are embedded by passing the server's behaviour as an
explicit oracle function and recording the calls that a run performs in
a trace list, so call-counting properties become statements about the
trace.  JavaScript truthiness of stored strings and numbers is embedded
explicitly (`jsTruthyS`, `jsTruthyN`, `jsOrStr`).
-/

/-- JS truthiness of an optional string value: present and nonempty. -/
def jsTruthyS : Option String → Bool
  | none => false
  | some s => s ≠ ""

/-- JS truthiness of an optional number value: present and nonzero. -/
def jsTruthyN : Option Int → Bool
  | none => false
  | some n => n ≠ 0

/-- JS `o || d` on an optional string `o` with default `d`:
falls through on a missing or empty (falsy) string. -/
def jsOrStr (o : Option String) (d : String) : String :=
  match o with
  | some s => if s = "" then d else s
  | none => d

/-- Decidable equality for `Except`, used to evaluate run outcomes on
concrete inputs. -/
instance [DecidableEq e] [DecidableEq a] : DecidableEq (Except e a) := fun x y =>
  match x, y with
  | .ok v, .ok w =>
      if h : v = w then isTrue (by rw [h]) else isFalse (by intro hc; cases hc; exact h rfl)
  | .error v, .error w =>
      if h : v = w then isTrue (by rw [h]) else isFalse (by intro hc; cases hc; exact h rfl)
  | .ok _, .error _ => isFalse (by intro hc; cases hc)
  | .error _, .ok _ => isFalse (by intro hc; cases hc)

/-! ## Modular variant: persisted store (`src/lib/config.js`) -/

/-- The `auth` sub-record of the persisted session file
(schema in `src/lib/config.js`); absent keys are `none`. -/
structure AuthRec where
  secret_id : Option String
  secret_key : Option String
  access_token : Option String
  refresh_token : Option String
  access_expires : Option Int
  refresh_expires : Option Int
deriving DecidableEq, Repr

/-- The `defaults` sub-record of the persisted session file. -/
structure Defaults where
  country : Option String
  institution_id : Option String
deriving DecidableEq, Repr

/-- The whole persisted configuration store of the modular variant:
`{ auth, defaults }`, each sub-record possibly absent. -/
structure Store where
  auth : Option AuthRec
  defaults : Option Defaults
deriving DecidableEq, Repr

/-- An `auth` record with every key absent (created on first
dot-notation `config.set('auth.x', v)` when `auth` is missing). -/
def emptyAuth : AuthRec :=
  ⟨none, none, none, none, none, none⟩

/-- Embeds `config.get('auth.f')`: dot-notation read through the optional
`auth` sub-record. -/
def Store.getAuth (s : Store) (f : AuthRec → Option α) : Option α :=
  s.auth.bind f

/-- Embeds `config.set('auth.x', v)`: dot-notation write, creating the `auth`
sub-record when absent. -/
def Store.setAuth (s : Store) (upd : AuthRec → AuthRec) : Store :=
  { s with auth := some (upd (s.auth.getD emptyAuth)) }

/-- Embeds `isAccessTokenValid()` from `src/lib/config.js`: reads
`auth.access_token` and `auth.access_expires`, returns false when
either is falsy, else checks `expires > now + 60`. -/
def isAccessTokenValid (s : Store) (now : Int) : Bool :=
  let token := s.getAuth AuthRec.access_token
  let expires := s.getAuth AuthRec.access_expires
  if !jsTruthyS token || !jsTruthyN expires then false
  else decide (expires.getD 0 > now + 60)

/-- Embeds `isRefreshTokenValid()` from `src/lib/config.js`: same check
against `auth.refresh_token` and `auth.refresh_expires`. -/
def isRefreshTokenValid (s : Store) (now : Int) : Bool :=
  let token := s.getAuth AuthRec.refresh_token
  let expires := s.getAuth AuthRec.refresh_expires
  if !jsTruthyS token || !jsTruthyN expires then false
  else decide (expires.getD 0 > now + 60)

/-- Embeds `clear()` from `src/lib/config.js`: `conf.clear()` empties the
whole store, `defaults` included. -/
def clear (_s : Store) : Store :=
  ⟨none, none⟩

/-- Embeds `logout()` from `src/lib/auth.js`: `config.delete('auth')` removes
the `auth` sub-record only. -/
def logout (s : Store) : Store :=
  { s with auth := none }

/-! ## Modular variant: token lifecycle (`src/lib/auth.js`) -/

/-- Body of a successful `/token/refresh/` response as consumed by the
code: `access` and `access_expires` are destructured; any `refresh`
field the server might also send is ignored by both variants. -/
structure RefreshResp where
  access : String
  access_expires : Int
  refresh : Option String
deriving DecidableEq, Repr

/-- Body of a successful `/token/new/` response as consumed by
`login` in `src/lib/auth.js`: all four fields are used. -/
structure TokenRespB where
  access : String
  refresh : String
  access_expires : Int
  refresh_expires : Int
deriving DecidableEq, Repr

/-- A network call made by the modular variant's auth layer. -/
inductive CallB where
  | refresh (rt : String)
  | acquire (id key : String)
deriving DecidableEq, Repr

/-- Outcome of a run of `ensureAuth`: the returned-or-thrown value, the
store after the run, and the trace of token-endpoint calls made. -/
structure AuthResB where
  result : Except String String
  store : Store
  calls : List CallB
deriving DecidableEq, Repr

/-- Error message thrown by `ensureAuth` when the refresh call fails. -/
def refreshFailedMsg : String :=
  "Failed to refresh token. Please login again using: nordigen auth login"

/-- Error message thrown by `ensureAuth` when no valid tokens exist. -/
def notAuthMsg : String :=
  "Not authenticated. Please login using: nordigen auth login --secret-id <id> --secret-key <key>"

/-- Embeds `ensureAuth()` from `src/lib/auth.js`.  `rsrv` is the refresh
endpoint's behaviour; `now` is `Math.floor(Date.now() / 1000)`.
Note the function never contacts the acquisition endpoint: with no
valid refresh token it throws, even when credentials are stored. -/
def ensureAuth (s : Store) (now : Int)
    (rsrv : String → Except String RefreshResp) : AuthResB :=
  if isAccessTokenValid s now then
    ⟨.ok ((s.getAuth AuthRec.access_token).getD ""), s, []⟩
  else if isRefreshTokenValid s now then
    let rt := (s.getAuth AuthRec.refresh_token).getD ""
    match rsrv rt with
    | .ok r =>
        let s1 := s.setAuth (fun a => { a with access_token := some r.access })
        let s2 := s1.setAuth (fun a => { a with access_expires := some (now + r.access_expires) })
        ⟨.ok r.access, s2, [.refresh rt]⟩
    | .error _ => ⟨.error refreshFailedMsg, s, [.refresh rt]⟩
  else
    ⟨.error notAuthMsg, s, []⟩

/-- Outcome of a run of `login`. -/
structure LoginResB where
  result : Except String TokenRespB
  store : Store
  calls : List CallB
deriving DecidableEq, Repr

/-- Embeds `login(secretId, secretKey)` from `src/lib/auth.js`: one
`obtainToken` call; on success stores the credentials, both tokens and
both expiries (`now + ttl`); on failure the store is untouched. -/
def login (s : Store) (now : Int) (secretId secretKey : String)
    (osrv : String → String → Except String TokenRespB) : LoginResB :=
  match osrv secretId secretKey with
  | .error e => ⟨.error e, s, [.acquire secretId secretKey]⟩
  | .ok r =>
      let s1 := s.setAuth (fun a => { a with secret_id := some secretId })
      let s2 := s1.setAuth (fun a => { a with secret_key := some secretKey })
      let s3 := s2.setAuth (fun a => { a with access_token := some r.access })
      let s4 := s3.setAuth (fun a => { a with refresh_token := some r.refresh })
      let s5 := s4.setAuth (fun a => { a with access_expires := some (now + r.access_expires) })
      let s6 := s5.setAuth (fun a => { a with refresh_expires := some (now + r.refresh_expires) })
      ⟨.ok r, s6, [.acquire secretId secretKey]⟩

/-! ## Single-file variant: config and token lifecycle (`src/api.js`) -/

/-- Modelled from the spec: the persisted session record of the
single-file variant.  Its `config.js` (with `getConfig`, `setConfig`
and `hasValidToken`) is not under `src/`; per the spec the session file
holds credentials, the token pair and expiry timestamps.  The keys
actually read and written by `src/api.js` are `secretId`, `secretKey`,
`accessToken`, `refreshToken` and `tokenExpiry` (epoch milliseconds);
`refreshExpiry` stands for a refresh-expiry key of the session record,
which this variant's code never writes. -/
structure StoreA where
  secretId : Option String
  secretKey : Option String
  accessToken : Option String
  refreshToken : Option String
  tokenExpiry : Option Int
  refreshExpiry : Option Int
deriving DecidableEq, Repr

/-- Modelled from the spec: `hasValidToken()` of the single-file
variant's missing `config.js` — "true iff an access token exists and
`accessExpiresAt > now + skew`" with a 60-second skew; this variant
keeps the expiry in milliseconds. -/
def hasValidToken (s : StoreA) (nowMs : Int) : Bool :=
  jsTruthyS s.accessToken && jsTruthyN s.tokenExpiry
    && decide (s.tokenExpiry.getD 0 > nowMs + 60000)

/-- Body of a successful `/token/new/` response as consumed by
`obtainAccessToken` in `src/api.js`: `access`, `refresh` and
`access_expires` are destructured (a missing `refresh` is skipped via
truthiness); the `refresh_expires` the server also sends is ignored. -/
structure TokenRespA where
  access : String
  refresh : Option String
  access_expires : Int
  refresh_expires : Int
deriving DecidableEq, Repr

/-- Error data available on a failed axios token call:
`error.response?.data?.summary` and `error.message`. -/
structure SrvErr where
  summary : Option String
  message : String
deriving DecidableEq, Repr

/-- A token-endpoint call made by the single-file variant. -/
inductive CallA where
  | refresh (rt : String)
  | acquire (id key : String)
deriving DecidableEq, Repr

/-- Outcome of a token-lifecycle run in the single-file variant. -/
structure AResA where
  result : Except String String
  store : StoreA
  calls : List CallA
deriving DecidableEq, Repr

/-- Error message thrown by `obtainAccessToken` without credentials. -/
def credsNotConfiguredMsg : String :=
  "Credentials not configured. Run: nordigencom config set --secret-id <id> --secret-key <key>"

/-- Embeds `obtainAccessToken()` from `src/api.js`: throws when either
credential is falsy, else one POST to `/token/new/`; on success stores
the access token, the refresh token when truthy, and
`tokenExpiry = Date.now() + access_expires * 1000`. -/
def obtainAccessToken (s : StoreA) (nowMs : Int)
    (osrv : String → String → Except SrvErr TokenRespA) : AResA :=
  if !jsTruthyS s.secretId || !jsTruthyS s.secretKey then
    ⟨.error credsNotConfiguredMsg, s, []⟩
  else
    let id := s.secretId.getD ""
    let key := s.secretKey.getD ""
    match osrv id key with
    | .ok r =>
        let s1 := { s with accessToken := some r.access }
        let s2 := if jsTruthyS r.refresh then { s1 with refreshToken := r.refresh } else s1
        let s3 := { s2 with tokenExpiry := some (nowMs + r.access_expires * 1000) }
        ⟨.ok r.access, s3, [.acquire id key]⟩
    | .error e =>
        ⟨.error ("Token request failed: " ++ jsOrStr e.summary e.message), s, [.acquire id key]⟩

/-- Embeds `refreshAccessToken()` from `src/api.js`: with a falsy
stored refresh token it falls through to acquisition; else one POST to
`/token/refresh/`, storing only the new access token and expiry on
success, and falling back to acquisition on failure. -/
def refreshAccessToken (s : StoreA) (nowMs : Int)
    (rsrv : String → Except SrvErr RefreshResp)
    (osrv : String → String → Except SrvErr TokenRespA) : AResA :=
  if !jsTruthyS s.refreshToken then obtainAccessToken s nowMs osrv
  else
    let rt := s.refreshToken.getD ""
    match rsrv rt with
    | .ok r =>
        ⟨.ok r.access,
         { s with accessToken := some r.access,
                  tokenExpiry := some (nowMs + r.access_expires * 1000) },
         [.refresh rt]⟩
    | .error _ =>
        let o := obtainAccessToken s nowMs osrv
        ⟨o.result, o.store, .refresh rt :: o.calls⟩

/-- Embeds `getAccessToken()` from `src/api.js`: returns the stored
token when `hasValidToken()`, else delegates to `refreshAccessToken`. -/
def getAccessToken (s : StoreA) (nowMs : Int)
    (rsrv : String → Except SrvErr RefreshResp)
    (osrv : String → String → Except SrvErr TokenRespA) : AResA :=
  if hasValidToken s nowMs then ⟨.ok (s.accessToken.getD ""), s, []⟩
  else refreshAccessToken s nowMs rsrv osrv

/-! ## Single-file variant: request pipeline and error classification -/

/-- A JSON error/response body as consulted by `handleApiError`:
the optional `summary`, `detail` and `message` fields, plus
`rendered`, which stands for `JSON.stringify(data)`. -/
structure BodyA where
  summary : Option String
  detail : Option String
  message : Option String
  rendered : String
deriving DecidableEq, Repr

/-- An axios error as probed by `handleApiError`: an optional HTTP
response (status and body), whether a request went out, and the
error's own message. -/
structure AxiosErrA where
  response : Option (Int × BodyA)
  request : Bool
  message : String
deriving DecidableEq, Repr

/-- Message thrown for a 401 response in the single-file variant. -/
def authFailedMsg : String :=
  "Authentication failed. Run: nordigencom auth login"

/-- Message thrown for a 403 response in the single-file variant. -/
def forbiddenMsg : String :=
  "Access forbidden. Check your API permissions."

/-- Message thrown for a 404 response in the single-file variant. -/
def notFoundMsg : String :=
  "Resource not found."

/-- Message thrown for a 429 response in the single-file variant. -/
def rateLimitedMsg : String :=
  "Rate limit exceeded. Please wait before retrying."

/-- Message thrown when no response was received (the transport-level
failure branch) in the single-file variant. -/
def noResponseMsg : String :=
  "No response from Nordigen API. Check your internet connection."

/-- Embeds `handleApiError(error)` from `src/api.js`, returning the
message of the error it throws: canned messages for 401/403/404/429, a
status-tagged `summary || detail || message || JSON.stringify(data)`
message otherwise; the fixed connectivity message when a request went
out but no response arrived; the original error's message otherwise. -/
def handleApiError : AxiosErrA → String
  | ⟨some (status, data), _, _⟩ =>
      if status = 401 then authFailedMsg
      else if status = 403 then forbiddenMsg
      else if status = 404 then notFoundMsg
      else if status = 429 then rateLimitedMsg
      else
        "API Error (" ++ toString status ++ "): "
          ++ jsOrStr data.summary (jsOrStr data.detail (jsOrStr data.message data.rendered))
  | ⟨none, true, _⟩ => noResponseMsg
  | ⟨none, false, m⟩ => m

/-- A query value as it can appear in a JS query object. -/
inductive QVal where
  | undef
  | null
  | str (s : String)
  | num (n : Int)
  | boolean (b : Bool)
deriving DecidableEq, Repr

/-- String coercion applied when a query value is serialized. -/
def qvalStr : QVal → String
  | .undef => "undefined"
  | .null => "null"
  | .str s => s
  | .num n => toString n
  | .boolean b => if b then "true" else "false"

/-- The primary HTTP request issued by `apiRequest` in `src/api.js`:
method, endpoint, headers, the raw `params` object handed to axios and
the optional JSON body. -/
structure RequestA where
  method : String
  endpoint : String
  headers : List (String × String)
  params : List (String × QVal)
  data : Option String
deriving DecidableEq, Repr

/-- Transport outcome of the primary axios call in `src/api.js`. -/
inductive AxiosOutcome where
  | success (data : BodyA)
  | errResponse (status : Int) (data : BodyA)
  | errRequest (message : String)
  | errOther (message : String)

/-- Outcome of a run of `apiRequest`: result, store, token-endpoint
call trace, and the primary request that was issued (none when token
resolution already failed). -/
structure ApiResA where
  result : Except String BodyA
  store : StoreA
  calls : List CallA
  issued : Option RequestA
deriving DecidableEq, Repr

/-- The primary request record built by `apiRequest`, with the
bearer header from the resolved token. -/
def mkReqA (method endpoint tok : String)
    (params : List (String × QVal)) (body : Option String) : RequestA :=
  { method := method, endpoint := endpoint,
    headers := [("Authorization", "Bearer " ++ tok),
                ("Accept", "application/json"),
                ("Content-Type", "application/json")],
    params := params, data := body }

/-- Response handling of `apiRequest`: the success path returns the
data, every axios failure is routed through `handleApiError`. -/
def apiDispatch (req : RequestA) (sto : StoreA) (cls : List CallA) :
    AxiosOutcome → ApiResA
  | .success d => ⟨.ok d, sto, cls, some req⟩
  | .errResponse st d =>
      ⟨.error (handleApiError ⟨some (st, d), true, ""⟩), sto, cls, some req⟩
  | .errRequest m =>
      ⟨.error (handleApiError ⟨none, true, m⟩), sto, cls, some req⟩
  | .errOther m =>
      ⟨.error (handleApiError ⟨none, false, m⟩), sto, cls, some req⟩

/-- Embeds `apiRequest(method, endpoint, data, params)` from
`src/api.js`: resolves a token via `getAccessToken` first (propagating
its failure without issuing anything), then issues the primary request
carrying `Authorization: Bearer <token>` and dispatches the outcome. -/
def apiRequest (s : StoreA) (nowMs : Int)
    (rsrv : String → Except SrvErr RefreshResp)
    (osrv : String → String → Except SrvErr TokenRespA)
    (method endpoint : String) (body : Option String)
    (params : List (String × QVal))
    (transport : RequestA → AxiosOutcome) : ApiResA :=
  match getAccessToken s nowMs rsrv osrv with
  | ⟨.error e, sto, cls⟩ => ⟨.error e, sto, cls, none⟩
  | ⟨.ok tok, sto, cls⟩ =>
      apiDispatch (mkReqA method endpoint tok params body) sto cls
        (transport (mkReqA method endpoint tok params body))

/-! ## Modular variant: request pipeline (`src/lib/api.js`) -/

/-- A JSON response body as consulted by `NordigenAPI.request`:
optional `summary`, `detail` and `status_code` fields. -/
structure JsonBodyB where
  summary : Option String
  detail : Option String
  status_code : Option Int
deriving DecidableEq, Repr

/-- A parsed response body: decoded JSON when the content type is
`application/json`, raw text otherwise (lines 84-91 of
`src/lib/api.js`). -/
inductive DataB where
  | json (b : JsonBodyB)
  | text (t : String)
deriving DecidableEq, Repr

/-- Reads `data.summary`: `undefined` on a text body. -/
def DataB.summaryOf : DataB → Option String
  | .json b => b.summary
  | .text _ => none

/-- Reads `data.detail`: `undefined` on a text body. -/
def DataB.detailOf : DataB → Option String
  | .json b => b.detail
  | .text _ => none

/-- Reads `data.status_code`: `undefined` on a text body. -/
def DataB.statusCodeOf : DataB → Option Int
  | .json b => b.status_code
  | .text _ => none

/-- An HTTP response as consumed by `NordigenAPI.request`: `ok`,
`status`, `statusText` and the already-parsed body. -/
structure HttpRespB where
  ok : Bool
  status : Int
  statusText : String
  body : DataB
deriving DecidableEq, Repr

/-- The error object thrown by `NordigenAPI.request` on a non-2xx
response (lines 93-103 of `src/lib/api.js`). -/
structure ErrB where
  message : String
  status : Int
  statusCode : Int
  detail : Option String
  summary : Option String
deriving DecidableEq, Repr

/-- Embeds the response handling of `NordigenAPI.request`: on `ok`
return the parsed data; otherwise throw an error whose message is
`data.summary || data.detail || "HTTP <status>: <statusText>"` (no
`message`-field step), carrying the raw status and
`data.status_code || response.status`. -/
def handleRespB (resp : HttpRespB) : Except ErrB DataB :=
  if resp.ok then .ok resp.body
  else
    .error
      { message := jsOrStr resp.body.summaryOf
          (jsOrStr resp.body.detailOf
            ("HTTP " ++ toString resp.status ++ ": " ++ resp.statusText)),
        status := resp.status,
        statusCode :=
          match resp.body.statusCodeOf with
          | some c => if c = 0 then resp.status else c
          | none => resp.status,
        detail := resp.body.detailOf,
        summary := resp.body.summaryOf }

/-- The outgoing HTTP request built by `NordigenAPI.request`: method,
endpoint, the serialized query pairs appended to the URL, headers, and
the optional stringified body. -/
structure RequestB where
  method : String
  endpoint : String
  query : List (String × String)
  headers : List (String × String)
  body : Option String
deriving DecidableEq, Repr

/-- Embeds the query-serialization loop of `NordigenAPI.request`:
each entry whose value is neither `undefined` nor `null` is appended
to the URL's search params (coerced to a string); the rest are
skipped. -/
def serializeQuery (q : List (String × QVal)) : List (String × String) :=
  q.filterMap (fun p =>
    match p.2 with
    | QVal.undef => none
    | QVal.null => none
    | v => some (p.1, qvalStr v))

/-- Embeds the request construction of `NordigenAPI.request` (lines
47-81 of `src/lib/api.js`): serialized query, base headers, and an
`Authorization: Bearer` header only when `auth` is enabled and the
client's stored `accessToken` is truthy.  No token resolution happens
here: the token is whatever the client was constructed with. -/
def buildRequestB (accessToken : Option String) (auth : Bool)
    (method endpoint : String) (query : List (String × QVal))
    (body : Option String) : RequestB :=
  { method := method, endpoint := endpoint,
    query := serializeQuery query,
    headers :=
      [("Content-Type", "application/json"), ("Accept", "application/json")]
        ++ (if auth && jsTruthyS accessToken
            then [("Authorization", "Bearer " ++ accessToken.getD "")]
            else []),
    body := body }

/-- Embeds `NordigenAPI.request(method, endpoint, {body, query,
auth})` end to end: build the request, run it through the transport,
handle the response. -/
def requestB (accessToken : Option String) (method endpoint : String)
    (query : List (String × QVal)) (body : Option String) (auth : Bool)
    (transport : RequestB → HttpRespB) : Except ErrB DataB :=
  handleRespB (transport (buildRequestB accessToken auth method endpoint query body))

/-! ## Modular variant: `config show` (`src/commands/config.js`) -/

/-- The literal replacement used by `config show` for secret values. -/
def redactedLit : String :=
  "***REDACTED***"

/-- Embeds the redaction step of `config show --json`: when the `auth`
sub-record exists, each of `secret_key`, `access_token` and
`refresh_token` is replaced by the redaction literal when truthy
(a falsy value is left as is). -/
def redactAuth (a : AuthRec) : AuthRec :=
  { a with
    secret_key := if jsTruthyS a.secret_key then some redactedLit else a.secret_key,
    access_token := if jsTruthyS a.access_token then some redactedLit else a.access_token,
    refresh_token := if jsTruthyS a.refresh_token then some redactedLit else a.refresh_token }

/-- Embeds the JSON output of `config show`: the full store when
`--show-secrets` is given, else the store with its `auth` sub-record
redacted. -/
def showJson (s : Store) (showSecrets : Bool) : Store :=
  if showSecrets then s else { s with auth := s.auth.map redactAuth }

/-- Embeds the table output of `config show` as the list of
label/value rows that are printed (rendering such as colors and
padding, owned by the missing `lib/output.js`, is abstracted away;
the row values are the strings the source passes to `printRow`). -/
def showTable (s : Store) (showSecrets : Bool) (path : String) :
    List (String × String) :=
  [("Config File", path)]
    ++ (match s.auth with
        | some a =>
            [("  Secret ID", jsOrStr a.secret_id "Not set"),
             ("  Secret Key",
               if showSecrets then a.secret_key.getD "undefined" else redactedLit),
             ("  Access Token",
               if jsTruthyS a.access_token
               then (if showSecrets then a.access_token.getD "" else redactedLit)
               else "Not set"),
             ("  Refresh Token",
               if jsTruthyS a.refresh_token
               then (if showSecrets then a.refresh_token.getD "" else redactedLit)
               else "Not set")]
        | none => [("Authentication", "Not configured")])
    ++ (match s.defaults with
        | some d =>
            [("  Country", jsOrStr d.country "Not set"),
             ("  Institution ID", jsOrStr d.institution_id "Not set")]
        | none => [("Defaults", "Not configured")])

/-- Two stores differ at most in the values of the three secret fields
of their `auth` sub-records: same `defaults`, same non-secret `auth`
fields, and matching presence of each secret field. -/
def sameExceptSecrets (s1 s2 : Store) : Prop :=
  s1.defaults = s2.defaults ∧
    ((s1.auth = none ∧ s2.auth = none) ∨
      (∃ a1 a2, s1.auth = some a1 ∧ s2.auth = some a2 ∧
        a1.secret_id = a2.secret_id ∧
        a1.access_expires = a2.access_expires ∧
        a1.refresh_expires = a2.refresh_expires ∧
        a1.secret_key.isSome = a2.secret_key.isSome ∧
        a1.access_token.isSome = a2.access_token.isSome ∧
        a1.refresh_token.isSome = a2.refresh_token.isSome))

/-- A store whose present secret values are all nonempty strings
(no JS-falsy secrets). -/
def secretsNonempty (s : Store) : Prop :=
  ∀ a, s.auth = some a →
    a.secret_key ≠ some "" ∧ a.access_token ≠ some "" ∧ a.refresh_token ≠ some ""

/-! ## Concrete server fixtures used in closed statements -/

/-- A refresh endpoint that always fails (modular variant's type). -/
def downRefreshSrv : String → Except String RefreshResp :=
  fun _ => Except.error "down"

/-- A refresh endpoint granting `newtok` for 86400 seconds. -/
def grantRefreshSrv : String → Except String RefreshResp :=
  fun _ => Except.ok ⟨"newtok", 86400, none⟩

/-- A refresh endpoint that always fails (single-file variant's type). -/
def downRefreshSrvA : String → Except SrvErr RefreshResp :=
  fun _ => Except.error ⟨none, "down"⟩

/-- An acquisition endpoint granting `tok1`/`ref1` with ttls 86400 and
2592000 (single-file variant's type). -/
def grantTokenSrvA : String → String → Except SrvErr TokenRespA :=
  fun _ _ => Except.ok ⟨"tok1", some "ref1", 86400, 2592000⟩

/-- An acquisition endpoint granting `tok1`/`ref1` with ttls 86400 and
2592000 (modular variant's type). -/
def grantTokenSrvB : String → String → Except String TokenRespB :=
  fun _ _ => Except.ok ⟨"tok1", "ref1", 86400, 2592000⟩

/-! ## Theorems -/

/-- C2: for every stored token pair and current time `now` (epoch
seconds, hence nonnegative), `isAccessTokenValid()` returns true iff a
(nonempty) access token is stored, an expiry is stored, and the expiry
exceeds `now + 60`; in particular an expiry equal to exactly `now + 60`
is invalid, and a missing token or expiry yields false. -/
theorem c2_access_valid_iff (s : Store) (now : Int) (hnow : 0 ≤ now) :
    isAccessTokenValid s now = true ↔
      ∃ t e, s.getAuth AuthRec.access_token = some t ∧ t ≠ "" ∧
        s.getAuth AuthRec.access_expires = some e ∧ e > now + 60 := by
  unfold isAccessTokenValid
  cases htok : s.getAuth AuthRec.access_token with
  | none => simp [jsTruthyS]
  | some t =>
    cases hexp : s.getAuth AuthRec.access_expires with
    | none => simp [jsTruthyS, jsTruthyN]
    | some e =>
      simp only [jsTruthyS, jsTruthyN, Option.getD_some]
      constructor
      · intro h
        by_cases ht : t = ""
        · simp [ht] at h
        · by_cases he : e = 0
          · simp [ht, he] at h
          · refine ⟨t, e, rfl, ht, rfl, ?_⟩
            simp [ht, he] at h
            exact h
      · rintro ⟨t', e', ht', htne, he', hgt⟩
        cases ht'
        cases he'
        simp [htne, hgt]
        omega

/-- C2 witness: a stored token `"tok"` expiring at 1000 is valid at
time 0. -/
theorem c2_witness :
    isAccessTokenValid ⟨some ⟨none, none, some "tok", none, some 1000, none⟩, none⟩ 0 = true :=
  (c2_access_valid_iff ⟨some ⟨none, none, some "tok", none, some 1000, none⟩, none⟩ 0 (by decide)).mpr
    ⟨"tok", 1000, rfl, by decide, rfl, by decide⟩

/-- C5 counterexample: with a default country `"GB"` stored, `clear()`
does not leave the non-auth fields unchanged — the whole `defaults`
sub-record (previously `{ country: "GB" }`) is gone afterwards. -/
theorem c5_counterexample :
    (clear ⟨some emptyAuth, some ⟨some "GB", none⟩⟩).defaults ≠
      (⟨some emptyAuth, some ⟨some "GB", none⟩⟩ : Store).defaults := by
  decide

/-- C5 (amended): `logout()` removes the whole `auth` sub-record
(credentials and token pair are absent afterwards) and leaves
`defaults` unchanged; `clear()` also removes all auth fields, but it
additionally wipes every non-auth field — the resulting store is
empty. -/
theorem c5_amended (s : Store) :
    (logout s).auth = none ∧
    (logout s).getAuth AuthRec.secret_id = none ∧
    (logout s).getAuth AuthRec.secret_key = none ∧
    (logout s).getAuth AuthRec.access_token = none ∧
    (logout s).getAuth AuthRec.refresh_token = none ∧
    (logout s).defaults = s.defaults ∧
    (clear s).auth = none ∧
    (clear s).defaults = none := by
  refine ⟨rfl, rfl, rfl, rfl, rfl, rfl, rfl, rfl⟩

/-- C1 counterexample: in a store holding credentials (`secret_id "A"`,
`secret_key "B"`) but no valid access or refresh token, `ensureAuth`
does not call the token-acquisition endpoint and does not return an
access token — it fails (with the not-authenticated error) after zero
network calls, contrary to the claim's "exactly one acquisition call,
store the pair, return the access token". -/
theorem c1_counterexample :
    (ensureAuth ⟨some ⟨some "A", some "B", none, none, none, none⟩, none⟩ 1000
        downRefreshSrv).result.isOk = false ∧
    (ensureAuth ⟨some ⟨some "A", some "B", none, none, none, none⟩, none⟩ 1000
        downRefreshSrv).calls = [] ∧
    (ensureAuth ⟨some ⟨some "A", some "B", none, none, none, none⟩, none⟩ 1000
        downRefreshSrv).result = Except.error notAuthMsg := by
  refine ⟨rfl, rfl, rfl⟩

/-- C1 (amended): with no valid access token and no valid refresh
token, the two variants diverge.  `getAccessToken` (single-file
variant) behaves as claimed: with truthy stored credentials and no
stored refresh token it makes exactly one acquisition call, stores the
returned pair (access token, refresh token when truthy, access expiry)
and returns the access token, and with falsy credentials it fails with
the credentials-not-configured error after zero calls.  `ensureAuth`
(modular variant) instead always fails with `NotAuthenticated` after
zero network calls, even when credentials are stored — it never
contacts the acquisition endpoint. -/
theorem c1_amended :
    (∀ (s : StoreA) (nowMs : Int) rsrv osrv (id key : String) (r : TokenRespA),
      hasValidToken s nowMs = false →
      jsTruthyS s.refreshToken = false →
      s.secretId = some id → id ≠ "" →
      s.secretKey = some key → key ≠ "" →
      osrv id key = Except.ok r →
      getAccessToken s nowMs rsrv osrv =
        ⟨Except.ok r.access,
         { s with accessToken := some r.access,
                  refreshToken := if jsTruthyS r.refresh then r.refresh else s.refreshToken,
                  tokenExpiry := some (nowMs + r.access_expires * 1000) },
         [CallA.acquire id key]⟩) ∧
    (∀ (s : StoreA) (nowMs : Int) rsrv osrv,
      hasValidToken s nowMs = false →
      jsTruthyS s.refreshToken = false →
      (jsTruthyS s.secretId && jsTruthyS s.secretKey) = false →
      getAccessToken s nowMs rsrv osrv = ⟨Except.error credsNotConfiguredMsg, s, []⟩) ∧
    (∀ (s : Store) (now : Int) rsrv,
      isAccessTokenValid s now = false →
      isRefreshTokenValid s now = false →
      ensureAuth s now rsrv = ⟨Except.error notAuthMsg, s, []⟩) := by
  refine ⟨?_, ?_, ?_⟩
  · intro s nowMs rsrv osrv id key r hvalid hrt hid hidne hkey hkeyne hosrv
    unfold getAccessToken refreshAccessToken obtainAccessToken
    rw [hvalid, hrt, hid, hkey]
    simp only [Bool.not_false, if_true, Bool.false_eq_true, if_false, Option.getD_some]
    rw [if_neg (by simp [jsTruthyS, hidne, hkeyne]), hosrv]
    cases hrr : jsTruthyS r.refresh <;> simp [hrr]
  · intro s nowMs rsrv osrv hvalid hrt hcreds
    unfold getAccessToken refreshAccessToken obtainAccessToken
    rw [hvalid, hrt]
    simp only [Bool.not_false, if_true, Bool.false_eq_true, if_false]
    rw [if_pos (by rw [← Bool.not_and, hcreds]; decide)]
  · intro s now rsrv hvalid hrvalid
    unfold ensureAuth
    rw [hvalid, hrvalid]
    simp

/-- C1 witness: with credentials `"A"`/`"B"` stored, no tokens, and a
server granting `tok1`/`ref1`, `getAccessToken` makes exactly the one
acquisition call, persists the pair and returns the access token. -/
theorem c1_witness :
    getAccessToken ⟨some "A", some "B", none, none, none, none⟩ 5000
        downRefreshSrvA
        grantTokenSrvA =
      ⟨Except.ok "tok1",
       ⟨some "A", some "B", some "tok1", some "ref1", some (5000 + 86400 * 1000), none⟩,
       [CallA.acquire "A" "B"]⟩ := by
  have h := c1_amended.1 ⟨some "A", some "B", none, none, none, none⟩ 5000
    downRefreshSrvA
    grantTokenSrvA
    "A" "B" ⟨"tok1", some "ref1", 86400, 2592000⟩
    (by decide) (by decide) rfl (by decide) rfl (by decide) rfl
  rw [h]
  decide

/-- C3: with an invalid access token and a valid refresh token, and
the refresh endpoint succeeding, both variants perform exactly one
refresh call and no acquisition call, store the new access token and
its expiry, and leave the refresh token, its expiry, the credentials
and all non-auth fields unchanged (a `refresh` field in the server
response, if any, is ignored). -/
theorem c3_refresh_frame :
    (∀ (s : Store) (now : Int) (rsrv : String → Except String RefreshResp)
        (rt : String) (r : RefreshResp),
      isAccessTokenValid s now = false →
      isRefreshTokenValid s now = true →
      s.getAuth AuthRec.refresh_token = some rt →
      rsrv rt = Except.ok r →
      (ensureAuth s now rsrv).calls = [CallB.refresh rt] ∧
      (ensureAuth s now rsrv).result = Except.ok r.access ∧
      (ensureAuth s now rsrv).store.getAuth AuthRec.access_token = some r.access ∧
      (ensureAuth s now rsrv).store.getAuth AuthRec.access_expires = some (now + r.access_expires) ∧
      (ensureAuth s now rsrv).store.getAuth AuthRec.refresh_token = s.getAuth AuthRec.refresh_token ∧
      (ensureAuth s now rsrv).store.getAuth AuthRec.refresh_expires = s.getAuth AuthRec.refresh_expires ∧
      (ensureAuth s now rsrv).store.getAuth AuthRec.secret_id = s.getAuth AuthRec.secret_id ∧
      (ensureAuth s now rsrv).store.getAuth AuthRec.secret_key = s.getAuth AuthRec.secret_key ∧
      (ensureAuth s now rsrv).store.defaults = s.defaults) ∧
    (∀ (s : StoreA) (nowMs : Int) (rsrv : String → Except SrvErr RefreshResp)
        (osrv : String → String → Except SrvErr TokenRespA) (rt : String) (r : RefreshResp),
      hasValidToken s nowMs = false →
      s.refreshToken = some rt → rt ≠ "" →
      rsrv rt = Except.ok r →
      getAccessToken s nowMs rsrv osrv =
        ⟨Except.ok r.access,
         { s with accessToken := some r.access,
                  tokenExpiry := some (nowMs + r.access_expires * 1000) },
         [CallA.refresh rt]⟩) := by
  constructor
  · intro s now rsrv rt r hvalid hrvalid hrt hsrv
    unfold ensureAuth
    rw [hvalid, hrvalid, hrt]
    simp only [Bool.false_eq_true, if_false, if_true, Option.getD_some]
    rw [hsrv]
    simp only [Store.setAuth, Store.getAuth]
    have hauth : ∃ a, s.auth = some a := by
      cases ha : s.auth with
      | none =>
        rw [Store.getAuth, ha] at hrt
        cases hrt
      | some a => exact ⟨a, rfl⟩
    obtain ⟨a, ha⟩ := hauth
    rw [Store.getAuth, ha] at hrt
    simp only [Option.some_bind] at hrt
    simp [ha, Store.getAuth, hrt]
  · intro s nowMs rsrv osrv rt r hvalid hrt hrtne hsrv
    unfold getAccessToken refreshAccessToken
    rw [hvalid, hrt]
    simp only [Bool.false_eq_true, if_false, jsTruthyS, Option.getD_some]
    rw [if_neg (by simp [hrtne]), hsrv]

/-- C3 witness: a store with an access token expired at 50 and a
refresh token `"ref"` valid until 1000000, refreshed at time 100 by a
server granting `"newtok"` for 86400 seconds: exactly one refresh
call, the new access token is returned, and the refresh token is
untouched. -/
theorem c3_witness :
    (ensureAuth ⟨some ⟨none, none, some "old", some "ref", some 50, some 1000000⟩, none⟩ 100
        grantRefreshSrv).calls = [CallB.refresh "ref"] ∧
    (ensureAuth ⟨some ⟨none, none, some "old", some "ref", some 50, some 1000000⟩, none⟩ 100
        grantRefreshSrv).result = Except.ok "newtok" ∧
    (ensureAuth ⟨some ⟨none, none, some "old", some "ref", some 50, some 1000000⟩, none⟩ 100
        grantRefreshSrv).store.getAuth AuthRec.refresh_token = some "ref" := by
  have h := c3_refresh_frame.1
    ⟨some ⟨none, none, some "old", some "ref", some 50, some 1000000⟩, none⟩ 100
    grantRefreshSrv "ref" ⟨"newtok", 86400, none⟩
    (by decide) (by decide) rfl rfl
  exact ⟨h.1, h.2.1, by rw [h.2.2.2.2.1]; rfl⟩

/-- Helper: the dispatch step always records the issued request. -/
theorem apiDispatch_issued (req : RequestA) (sto : StoreA) (cls : List CallA)
    (o : AxiosOutcome) : (apiDispatch req sto cls o).issued = some req := by
  cases o <;> rfl

/-- Helper: the dispatch step preserves the token-call trace. -/
theorem apiDispatch_calls (req : RequestA) (sto : StoreA) (cls : List CallA)
    (o : AxiosOutcome) : (apiDispatch req sto cls o).calls = cls := by
  cases o <;> rfl

/-- Helper: `apiRequest` on successful token resolution reduces to a
dispatch of the issued request. -/
theorem apiRequest_ok_eq (s : StoreA) (nowMs : Int) (rsrv : String → Except SrvErr RefreshResp)
    (osrv : String → String → Except SrvErr TokenRespA) (method endpoint : String)
    (body : Option String) (params : List (String × QVal))
    (transport : RequestA → AxiosOutcome) (tok : String) (sto : StoreA) (cls : List CallA)
    (h : getAccessToken s nowMs rsrv osrv = ⟨Except.ok tok, sto, cls⟩) :
    apiRequest s nowMs rsrv osrv method endpoint body params transport =
      apiDispatch (mkReqA method endpoint tok params body) sto cls
        (transport (mkReqA method endpoint tok params body)) := by
  unfold apiRequest
  rw [h]

/-- Helper: `apiRequest` on failed token resolution issues nothing. -/
theorem apiRequest_error_eq (s : StoreA) (nowMs : Int) (rsrv : String → Except SrvErr RefreshResp)
    (osrv : String → String → Except SrvErr TokenRespA) (method endpoint : String)
    (body : Option String) (params : List (String × QVal))
    (transport : RequestA → AxiosOutcome) (e : String) (sto : StoreA) (cls : List CallA)
    (h : getAccessToken s nowMs rsrv osrv = ⟨Except.error e, sto, cls⟩) :
    apiRequest s nowMs rsrv osrv method endpoint body params transport =
      ⟨Except.error e, sto, cls, none⟩ := by
  unfold apiRequest
  rw [h]

/-- C4 counterexample: a `NordigenAPI.request` call on a client with
no stored access token performs no token resolution and sends no
`Authorization` header at all — contrary to the claim that every
`request` call resolves a token via `ensureAccessToken()` and sends it
as a bearer header. -/
theorem c4_counterexample :
    (buildRequestB none true "GET" "/api/v2/institutions/"
        [("country", QVal.str "GB")] none).headers =
      [("Content-Type", "application/json"), ("Accept", "application/json")] := by
  decide

/-- C4 (amended): `apiRequest` (single-file variant) resolves a token
through `getAccessToken` before issuing the primary request and puts
`Authorization: Bearer <token>` on it, issuing nothing when resolution
fails.  `NordigenAPI.request` (modular variant) performs no token
resolution itself: it attaches a bearer header built from the client's
constructor-supplied or stored token when `auth` is enabled and the
token is truthy, and sends no `Authorization` header otherwise. -/
theorem c4_amended :
    (∀ (s : StoreA) (nowMs : Int) rsrv osrv (method endpoint : String)
        (body : Option String) (params : List (String × QVal))
        (transport : RequestA → AxiosOutcome) (tok : String),
      (getAccessToken s nowMs rsrv osrv).result = Except.ok tok →
      ∃ req : RequestA,
        (apiRequest s nowMs rsrv osrv method endpoint body params transport).issued = some req ∧
        (apiRequest s nowMs rsrv osrv method endpoint body params transport).calls =
          (getAccessToken s nowMs rsrv osrv).calls ∧
        ("Authorization", "Bearer " ++ tok) ∈ req.headers) ∧
    (∀ (s : StoreA) (nowMs : Int) rsrv osrv (method endpoint : String)
        (body : Option String) (params : List (String × QVal))
        (transport : RequestA → AxiosOutcome) (e : String),
      (getAccessToken s nowMs rsrv osrv).result = Except.error e →
      (apiRequest s nowMs rsrv osrv method endpoint body params transport).issued = none) ∧
    (∀ (tok : Option String) (auth : Bool) (method endpoint : String)
        (query : List (String × QVal)) (body : Option String),
      jsTruthyS tok = false ∨ auth = false →
      ∀ v, ("Authorization", v) ∉ (buildRequestB tok auth method endpoint query body).headers) ∧
    (∀ (tok : String) (method endpoint : String)
        (query : List (String × QVal)) (body : Option String),
      tok ≠ "" →
      ("Authorization", "Bearer " ++ tok) ∈
        (buildRequestB (some tok) true method endpoint query body).headers) := by
  refine ⟨?_, ?_, ?_, ?_⟩
  · intro s nowMs rsrv osrv method endpoint body params transport tok htok
    rcases hg : getAccessToken s nowMs rsrv osrv with ⟨res, sto, cls⟩
    obtain rfl : res = Except.ok tok := by rw [hg] at htok; exact htok
    rw [apiRequest_ok_eq s nowMs rsrv osrv method endpoint body params transport tok sto cls hg]
    refine ⟨mkReqA method endpoint tok params body, apiDispatch_issued _ _ _ _, ?_, ?_⟩
    · rw [apiDispatch_calls]
    · simp [mkReqA]
  · intro s nowMs rsrv osrv method endpoint body params transport e herr
    rcases hg : getAccessToken s nowMs rsrv osrv with ⟨res, sto, cls⟩
    obtain rfl : res = Except.error e := by rw [hg] at herr; exact herr
    rw [apiRequest_error_eq s nowMs rsrv osrv method endpoint body params transport e sto cls hg]
  · intro tok auth method endpoint query body hcond v
    unfold buildRequestB
    rcases hcond with h | h <;>
      simp [h]
  · intro tok method endpoint query body htne
    unfold buildRequestB
    simp [jsTruthyS, htne]

/-- C4 witness: a client holding token `"tok"` sends
`Authorization: Bearer tok` on a `GET /api/v2/institutions/` call. -/
theorem c4_witness :
    ("Authorization", "Bearer " ++ "tok") ∈
      (buildRequestB (some "tok") true "GET" "/api/v2/institutions/"
        [("country", QVal.str "GB")] none).headers :=
  c4_amended.2.2.2 "tok" "GET" "/api/v2/institutions/"
    [("country", QVal.str "GB")] none (by decide)

/-- C6 counterexample: a successful acquisition by the single-file
variant's `obtainAccessToken` (stored credentials `"A"`/`"B"`, server
granting both tokens with `refresh_expires = 2592000`) makes its one
acquisition call but persists no refresh-token expiry at all — the
refresh-expiry key stays absent instead of holding call time plus the
server-provided ttl. -/
theorem c6_counterexample :
    (obtainAccessToken ⟨some "A", some "B", none, none, none, none⟩ 1000000
        grantTokenSrvA).store.refreshExpiry = none ∧
    (obtainAccessToken ⟨some "A", some "B", none, none, none, none⟩ 1000000
        grantTokenSrvA).calls =
      [CallA.acquire "A" "B"] ∧
    (obtainAccessToken ⟨some "A", some "B", none, none, none, none⟩ 1000000
        grantTokenSrvA).result =
      Except.ok "tok1" := by
  refine ⟨rfl, rfl, rfl⟩

/-- C6 (amended): on a successful acquisition exactly one acquisition
call is made and the returned tokens are persisted, with expiries
computed as call time plus the server ttl where an expiry is stored at
all: `login` (modular variant) stores both tokens and both expiries
(`now + ttl`, seconds); `obtainAccessToken` (single-file variant)
stores both tokens but only the access expiry
(`now + ttl * 1000`, milliseconds) and no refresh expiry.  Stored
expiries are not recomputed by a lifecycle run that keeps the token:
with a valid access token both `ensureAuth` and `getAccessToken`
return it with the store unchanged and no network call. -/
theorem c6_amended :
    (∀ (s : Store) (now : Int) (id key : String)
        (osrv : String → String → Except String TokenRespB) (r : TokenRespB),
      osrv id key = Except.ok r →
      (login s now id key osrv).calls = [CallB.acquire id key] ∧
      (login s now id key osrv).result = Except.ok r ∧
      (login s now id key osrv).store.getAuth AuthRec.secret_id = some id ∧
      (login s now id key osrv).store.getAuth AuthRec.secret_key = some key ∧
      (login s now id key osrv).store.getAuth AuthRec.access_token = some r.access ∧
      (login s now id key osrv).store.getAuth AuthRec.refresh_token = some r.refresh ∧
      (login s now id key osrv).store.getAuth AuthRec.access_expires = some (now + r.access_expires) ∧
      (login s now id key osrv).store.getAuth AuthRec.refresh_expires = some (now + r.refresh_expires) ∧
      (login s now id key osrv).store.defaults = s.defaults) ∧
    (∀ (s : StoreA) (nowMs : Int)
        (osrv : String → String → Except SrvErr TokenRespA) (id key : String) (r : TokenRespA),
      s.secretId = some id → id ≠ "" →
      s.secretKey = some key → key ≠ "" →
      osrv id key = Except.ok r →
      obtainAccessToken s nowMs osrv =
        ⟨Except.ok r.access,
         { s with accessToken := some r.access,
                  refreshToken := if jsTruthyS r.refresh then r.refresh else s.refreshToken,
                  tokenExpiry := some (nowMs + r.access_expires * 1000) },
         [CallA.acquire id key]⟩ ∧
      (obtainAccessToken s nowMs osrv).store.refreshExpiry = s.refreshExpiry) ∧
    (∀ (s : Store) (now : Int) (rsrv : String → Except String RefreshResp),
      isAccessTokenValid s now = true →
      ensureAuth s now rsrv =
        ⟨Except.ok ((s.getAuth AuthRec.access_token).getD ""), s, []⟩) ∧
    (∀ (s : StoreA) (nowMs : Int)
        (rsrv : String → Except SrvErr RefreshResp)
        (osrv : String → String → Except SrvErr TokenRespA),
      hasValidToken s nowMs = true →
      getAccessToken s nowMs rsrv osrv = ⟨Except.ok (s.accessToken.getD ""), s, []⟩) := by
  refine ⟨?_, ?_, ?_, ?_⟩
  · intro s now id key osrv r hosrv
    unfold login
    rw [hosrv]
    simp [Store.setAuth, Store.getAuth]
  · intro s nowMs osrv id key r hid hidne hkey hkeyne hosrv
    have heq : obtainAccessToken s nowMs osrv =
        ⟨Except.ok r.access,
         { s with accessToken := some r.access,
                  refreshToken := if jsTruthyS r.refresh then r.refresh else s.refreshToken,
                  tokenExpiry := some (nowMs + r.access_expires * 1000) },
         [CallA.acquire id key]⟩ := by
      unfold obtainAccessToken
      rw [hid, hkey]
      simp only [Option.getD_some]
      rw [if_neg (by simp [jsTruthyS, hidne, hkeyne]), hosrv]
      cases hrr : jsTruthyS r.refresh <;> simp [hrr]
    refine ⟨heq, ?_⟩
    rw [heq]
  · intro s now rsrv hvalid
    unfold ensureAuth
    rw [hvalid]
    rfl
  · intro s nowMs rsrv osrv hvalid
    unfold getAccessToken
    rw [hvalid]
    rfl

/-- C6 witness: `login` at time 500 with a server granting
`tok1`/`ref1` (ttls 86400 and 2592000) makes one acquisition call and
stores both expiries as call time plus ttl. -/
theorem c6_witness :
    (login ⟨none, none⟩ 500 "A" "B"
        grantTokenSrvB).calls = [CallB.acquire "A" "B"] ∧
    (login ⟨none, none⟩ 500 "A" "B"
        grantTokenSrvB).store.getAuth AuthRec.access_expires =
      some (500 + 86400) ∧
    (login ⟨none, none⟩ 500 "A" "B"
        grantTokenSrvB).store.getAuth AuthRec.refresh_expires =
      some (500 + 2592000) := by
  have h := c6_amended.1 ⟨none, none⟩ 500 "A" "B"
    grantTokenSrvB
    ⟨"tok1", "ref1", 86400, 2592000⟩ rfl
  exact ⟨h.1, h.2.2.2.2.2.2.1, h.2.2.2.2.2.2.2.1⟩

/-- Helper: a truthy optional string survives the JS `||` default. -/
theorem jsOrStr_truthy (o : Option String) (d : String) (h : jsTruthyS o = true) :
    some (jsOrStr o d) = o := by
  cases o with
  | none => simp [jsTruthyS] at h
  | some s =>
    simp only [jsTruthyS, decide_eq_true_eq] at h
    simp [jsOrStr, h]

/-- Helper: a falsy optional string falls through to the default. -/
theorem jsOrStr_falsy (o : Option String) (d : String) (h : jsTruthyS o = false) :
    jsOrStr o d = d := by
  cases o with
  | none => rfl
  | some s =>
    simp only [jsTruthyS, decide_eq_false_iff_not, not_not] at h
    simp [jsOrStr, h]

/-- C7 counterexample: the single-file variant's `handleApiError` maps
a 401 response whose body carries `summary = "Invalid token"` to the
canned re-login message, which does not contain `"Invalid token"` —
the claimed summary/detail/message/status-text chain is not applied to
401 responses there. -/
theorem c7_counterexample :
    handleApiError
        ⟨some (401, ⟨some "Invalid token", some "Token is invalid or expired", none, "{}"⟩),
         true, ""⟩ = authFailedMsg ∧
    ¬ ("Invalid token".toList <:+: authFailedMsg.toList) := by
  exact ⟨rfl, by decide⟩

/-- C7 (amended): on a non-2xx response the caller never receives a
success value.  `NordigenAPI.request` (modular variant) raises an
error carrying the HTTP status whose message is the body's `summary`,
else `detail`, else the raw `HTTP <status>: <statusText>` text — there
is no `message`-field step; its 401-with-`summary:"Invalid token"`
scenario yields exactly that message with status 401.  `handleApiError`
(single-file variant) instead maps 401/403/404/429 to fixed messages
and only applies the `summary`/`detail`/`message`/stringified-body
chain (tagged with the status) to other statuses; `apiRequest` wraps
every error response into a raised error, never a success value. -/
theorem c7_amended :
    (∀ resp : HttpRespB, resp.ok = false →
      (∀ d, handleRespB resp ≠ Except.ok d) ∧
      ∃ err, handleRespB resp = Except.error err ∧
        err.status = resp.status ∧
        (jsTruthyS resp.body.summaryOf = true → some err.message = resp.body.summaryOf) ∧
        (jsTruthyS resp.body.summaryOf = false → jsTruthyS resp.body.detailOf = true →
          some err.message = resp.body.detailOf) ∧
        (jsTruthyS resp.body.summaryOf = false → jsTruthyS resp.body.detailOf = false →
          err.message = "HTTP " ++ toString resp.status ++ ": " ++ resp.statusText)) ∧
    (requestB (some "tok") "GET" "/api/v2/accounts/x/" [] none true
        (fun _ => ⟨false, 401, "Unauthorized",
          DataB.json ⟨some "Invalid token", some "Token is invalid or expired", some 401⟩⟩) =
      Except.error ⟨"Invalid token", 401, 401, some "Token is invalid or expired", some "Invalid token"⟩ ∧
      "Invalid token".toList <:+: "Invalid token".toList) ∧
    (∀ (d : BodyA) (req : Bool) (m : String),
      handleApiError ⟨some (401, d), req, m⟩ = authFailedMsg ∧
      handleApiError ⟨some (403, d), req, m⟩ = forbiddenMsg ∧
      handleApiError ⟨some (404, d), req, m⟩ = notFoundMsg ∧
      handleApiError ⟨some (429, d), req, m⟩ = rateLimitedMsg) ∧
    (∀ (st : Int) (d : BodyA) (req : Bool) (m : String),
      st ≠ 401 → st ≠ 403 → st ≠ 404 → st ≠ 429 →
      handleApiError ⟨some (st, d), req, m⟩ =
        "API Error (" ++ toString st ++ "): "
          ++ jsOrStr d.summary (jsOrStr d.detail (jsOrStr d.message d.rendered))) ∧
    (∀ (s : StoreA) (nowMs : Int) rsrv osrv (method endpoint : String)
        (body : Option String) (params : List (String × QVal)) (st : Int) (d : BodyA),
      (apiRequest s nowMs rsrv osrv method endpoint body params
          (fun _ => AxiosOutcome.errResponse st d)).result.isOk = false) := by
  refine ⟨?_, ?_, ?_, ?_, ?_⟩
  · intro resp hok
    unfold handleRespB
    rw [hok]
    simp only [Bool.false_eq_true, if_false]
    refine ⟨?_, ?_⟩
    · intro d h
      cases h
    refine ⟨_, rfl, rfl, ?_, ?_, ?_⟩
    · intro hs
      exact jsOrStr_truthy _ _ hs
    · intro hs hd
      rw [jsOrStr_falsy _ _ hs]
      exact jsOrStr_truthy _ _ hd
    · intro hs hd
      rw [jsOrStr_falsy _ _ hs, jsOrStr_falsy _ _ hd]
  · exact ⟨rfl, by decide⟩
  · intro d req m
    refine ⟨rfl, rfl, rfl, rfl⟩
  · intro st d req m h1 h2 h3 h4
    simp only [handleApiError]
    rw [if_neg h1, if_neg h2, if_neg h3, if_neg h4]
  · intro s nowMs rsrv osrv method endpoint body params st d
    rcases hg : getAccessToken s nowMs rsrv osrv with ⟨res, sto, cls⟩
    cases res with
    | error e =>
      rw [apiRequest_error_eq s nowMs rsrv osrv method endpoint body params _ e sto cls hg]
      rfl
    | ok tok =>
      rw [apiRequest_ok_eq s nowMs rsrv osrv method endpoint body params _ tok sto cls hg]
      rfl

/-- C7 witness: a 500 response whose body has only a `detail` field
yields the status-tagged detail message through `handleApiError`. -/
theorem c7_witness :
    handleApiError ⟨some (500, ⟨none, some "Server error", none, "{}"⟩), true, ""⟩ =
      "API Error (" ++ toString (500 : Int) ++ "): "
        ++ jsOrStr none (jsOrStr (some "Server error") (jsOrStr none "{}")) :=
  c7_amended.2.2.2.1 500 ⟨none, some "Server error", none, "{}"⟩ true ""
    (by decide) (by decide) (by decide) (by decide)

/-- Helper: the generic status-tagged message can never be the fixed
connectivity message (their first characters differ). -/
theorem apiError_ne_noResponseMsg (x : String) :
    "API Error (" ++ x ≠ noResponseMsg := by
  intro h
  have hd := congrArg String.data h
  rw [String.data_append] at hd
  have h1 : "API Error (".data = 'A' :: "PI Error (".data := rfl
  have h2 : noResponseMsg.data =
      'N' :: "o response from Nordigen API. Check your internet connection.".data := rfl
  rw [h1, h2, List.cons_append] at hd
  injection hd with hh _
  exact absurd hh (by decide)

/-- C8: when a request went out but no response was received, the
single-file variant's `handleApiError` raises the fixed
connectivity-failure message, which carries no HTTP status and is
produced independently of any status information; it is distinct from
every message the handler produces when an HTTP response (a non-2xx
status) was received. -/
theorem c8_network_error_distinct :
    (∀ e : AxiosErrA, e.response = none → e.request = true →
      handleApiError e = noResponseMsg) ∧
    (∀ (st : Int) (d : BodyA) (req : Bool) (m : String),
      handleApiError ⟨some (st, d), req, m⟩ ≠ noResponseMsg) := by
  constructor
  · intro e hresp hreq
    rcases e with ⟨resp, req, m⟩
    cases hresp
    cases hreq
    rfl
  · intro st d req m
    simp only [handleApiError]
    by_cases h1 : st = 401
    · simp only [h1, if_true]
      decide
    by_cases h2 : st = 403
    · rw [if_neg h1, if_pos h2]
      decide
    by_cases h3 : st = 404
    · rw [if_neg h1, if_neg h2, if_pos h3]
      decide
    by_cases h4 : st = 429
    · rw [if_neg h1, if_neg h2, if_neg h3, if_pos h4]
      decide
    rw [if_neg h1, if_neg h2, if_neg h3, if_neg h4]
    rw [String.append_assoc, String.append_assoc]
    exact apiError_ne_noResponseMsg _

/-- C8 witness: a connection-refused axios error (request sent, no
response) maps to the fixed connectivity message. -/
theorem c8_witness :
    handleApiError ⟨none, true, "connect ECONNREFUSED"⟩ = noResponseMsg :=
  c8_network_error_distinct.1 ⟨none, true, "connect ECONNREFUSED"⟩ rfl rfl

/-- C9: `NordigenAPI.request` serializes exactly the query entries
whose value is neither `undefined` nor `null` (coerced to strings),
omitting the rest; and the `GET /api/v2/institutions/` call with
`{country: 'GB'}` on a client holding a (nonempty) token produces an
outgoing request whose query contains `country=GB` and whose headers
carry `Authorization: Bearer <token>`. -/
theorem c9_query_serialization :
    (∀ (q : List (String × QVal)) (k : String) (v : QVal),
      (k, v) ∈ q → v ≠ QVal.undef → v ≠ QVal.null →
      (k, qvalStr v) ∈ serializeQuery q) ∧
    (∀ (q : List (String × QVal)) (k s : String),
      (k, s) ∈ serializeQuery q →
      ∃ v, (k, v) ∈ q ∧ v ≠ QVal.undef ∧ v ≠ QVal.null ∧ qvalStr v = s) ∧
    (∀ tok : String, tok ≠ "" →
      ("country", "GB") ∈ (buildRequestB (some tok) true "GET" "/api/v2/institutions/"
          [("country", QVal.str "GB")] none).query ∧
      ("Authorization", "Bearer " ++ tok) ∈ (buildRequestB (some tok) true "GET"
          "/api/v2/institutions/" [("country", QVal.str "GB")] none).headers) := by
  refine ⟨?_, ?_, ?_⟩
  · intro q k v hmem hu hn
    unfold serializeQuery
    refine List.mem_filterMap.mpr ⟨(k, v), hmem, ?_⟩
    cases v with
    | undef => exact absurd rfl hu
    | null => exact absurd rfl hn
    | str s => rfl
    | num n => rfl
    | boolean b => rfl
  · intro q k s hmem
    unfold serializeQuery at hmem
    obtain ⟨⟨k', v⟩, hmem', hf⟩ := List.mem_filterMap.mp hmem
    cases v with
    | undef => cases hf
    | null => cases hf
    | str t =>
      obtain ⟨hk, hs⟩ := Prod.mk.inj (Option.some.inj hf)
      subst hk
      exact ⟨QVal.str t, hmem', by simp, by simp, hs⟩
    | num n =>
      obtain ⟨hk, hs⟩ := Prod.mk.inj (Option.some.inj hf)
      subst hk
      exact ⟨QVal.num n, hmem', by simp, by simp, hs⟩
    | boolean b =>
      obtain ⟨hk, hs⟩ := Prod.mk.inj (Option.some.inj hf)
      subst hk
      exact ⟨QVal.boolean b, hmem', by simp, by simp, hs⟩
  · intro tok htok
    constructor
    · simp [buildRequestB, serializeQuery, qvalStr]
    · simp [buildRequestB, jsTruthyS, htok]

/-- C9 witness: with token `"tok"`, the outgoing institutions request
carries the `country=GB` query pair. -/
theorem c9_witness :
    ("country", "GB") ∈ (buildRequestB (some "tok") true "GET" "/api/v2/institutions/"
        [("country", QVal.str "GB")] none).query :=
  (c9_query_serialization.2.2 "tok" (by decide)).1

/-- Helper: the per-field redaction step gives equal results on two
secret fields with matching presence and nonempty values. -/
theorem redactField_eq (o1 o2 : Option String) (hp : o1.isSome = o2.isSome)
    (h1 : o1 ≠ some "") (h2 : o2 ≠ some "") :
    (if jsTruthyS o1 then some redactedLit else o1) =
      (if jsTruthyS o2 then some redactedLit else o2) := by
  cases o1 <;> cases o2 <;> simp_all [jsTruthyS]

/-- Helper: matching presence and nonemptiness give equal truthiness. -/
theorem jsTruthyS_eq_of (o1 o2 : Option String) (hp : o1.isSome = o2.isSome)
    (h1 : o1 ≠ some "") (h2 : o2 ≠ some "") :
    jsTruthyS o1 = jsTruthyS o2 := by
  cases o1 <;> cases o2 <;> simp_all [jsTruthyS]

/-- C10 counterexample: two stores differing only in the stored
`secret_key` value (`""` versus `"sk"`) yield different
`config show --json` output — the empty-string secret escapes the
truthiness-guarded redaction and is printed verbatim instead of as the
redaction literal — so the output is not independent of the stored
secret values. -/
theorem c10_counterexample :
    showJson ⟨some ⟨none, some "", none, none, none, none⟩, none⟩ false ≠
      showJson ⟨some ⟨none, some "sk", none, none, none, none⟩, none⟩ false ∧
    (showJson ⟨some ⟨none, some "", none, none, none, none⟩, none⟩ false).getAuth
        AuthRec.secret_key ≠ some redactedLit := by
  exact ⟨by decide, by decide⟩

/-- C10 (amended): provided the stored `secret_key`, `access_token`
and `refresh_token` values are nonempty (JS-truthy) when present, the
output of `config show` without `--show-secrets` is independent of
those values in both JSON and table form — two stores agreeing outside
the three secret fields, with matching field presence, render
identically — and each present field is rendered as the literal
`***REDACTED***`.  (Empty-string values escape redaction, as the
counterexample shows.) -/
theorem c10_amended :
    (∀ (s1 s2 : Store) (path : String),
      secretsNonempty s1 → secretsNonempty s2 → sameExceptSecrets s1 s2 →
      showJson s1 false = showJson s2 false ∧
      showTable s1 false path = showTable s2 false path) ∧
    (∀ a : AuthRec, jsTruthyS a.secret_key = true →
      (redactAuth a).secret_key = some redactedLit) ∧
    (∀ a : AuthRec, jsTruthyS a.access_token = true →
      (redactAuth a).access_token = some redactedLit) ∧
    (∀ a : AuthRec, jsTruthyS a.refresh_token = true →
      (redactAuth a).refresh_token = some redactedLit) := by
  refine ⟨?_, ?_, ?_, ?_⟩
  · intro s1 s2 path h1 h2 hsame
    obtain ⟨hdef, hcase⟩ := hsame
    rcases hcase with ⟨hn1, hn2⟩ | ⟨a1, a2, ha1, ha2, hsid, hae, hre, hskp, hatp, hrtp⟩
    · constructor
      · simp [showJson, hn1, hn2, hdef]
      · simp [showTable, hn1, hn2, hdef]
    · obtain ⟨hk1, hk2, hk3⟩ := h1 _ ha1
      obtain ⟨hm1, hm2, hm3⟩ := h2 _ ha2
      have hra : redactAuth a1 = redactAuth a2 := by
        unfold redactAuth
        simp only [AuthRec.mk.injEq]
        exact ⟨hsid, redactField_eq _ _ hskp hk1 hm1,
          redactField_eq _ _ hatp hk2 hm2,
          redactField_eq _ _ hrtp hk3 hm3, hae, hre⟩
      have hta : jsTruthyS a1.access_token = jsTruthyS a2.access_token :=
        jsTruthyS_eq_of _ _ hatp hk2 hm2
      have htr : jsTruthyS a1.refresh_token = jsTruthyS a2.refresh_token :=
        jsTruthyS_eq_of _ _ hrtp hk3 hm3
      constructor
      · simp [showJson, ha1, ha2, hra, hdef]
      · simp [showTable, ha1, ha2, hdef, hsid, hta, htr]
  · intro a h
    simp [redactAuth, h]
  · intro a h
    simp [redactAuth, h]
  · intro a h
    simp [redactAuth, h]

/-- C10 witness: two stores differing only in nonempty secret values
produce identical redacted JSON output. -/
theorem c10_witness :
    showJson ⟨some ⟨some "id", some "k1", some "t1", some "r1", some 1, some 2⟩,
        some ⟨some "GB", none⟩⟩ false =
      showJson ⟨some ⟨some "id", some "k2", some "t2", some "r2", some 1, some 2⟩,
        some ⟨some "GB", none⟩⟩ false :=
  (c10_amended.1
    ⟨some ⟨some "id", some "k1", some "t1", some "r1", some 1, some 2⟩, some ⟨some "GB", none⟩⟩
    ⟨some ⟨some "id", some "k2", some "t2", some "r2", some 1, some 2⟩, some ⟨some "GB", none⟩⟩
    "path"
    (by intro a ha; cases ha; exact ⟨by decide, by decide, by decide⟩)
    (by intro a ha; cases ha; exact ⟨by decide, by decide, by decide⟩)
    ⟨rfl, Or.inr ⟨_, _, rfl, rfl, rfl, rfl, rfl, rfl, rfl, rfl⟩⟩).1
